import Mathlib

/-!
Verification of the reliontomo command-building layer.

This file gives a shallow embedding of the two protocol command builders of
the repository (`protocol_de_novo_initial_model.py` and
`protocol_rec_tomogram.py`) together with the `getProgram` helper of
`utils.py`, and proves the frozen claims about them.

Modelling conventions:
- Values read from the host-framework form objects (`self.<param>.get()`)
  become fields of an argument structure; paths computed by host-framework
  collaborators (`_getExtraPath`, the upstream protocol's star file) become
  opaque string fields or an explicit extra-directory field.
- Python integers become `Int` (so `%i` of a negative value renders with a
  leading minus sign, as in Python); Python truthiness tests on integers
  and strings become `≠ 0` / `≠ ""`.
- The binning factor (a Python float formatted with `%.1f`) is modelled as
  an exact rational; the two inputs the claims mention (8 and 8.25) are
  exactly representable binary doubles, and `%.1f` performs correctly
  rounded (round-half-to-even) one-decimal formatting on them, which
  `format1f` reproduces on rationals.
-/

/-- Arguments of `ProtRelionDeNovoInitialModel` read by `_genCommand`,
`_generateDeNovo3DModel` and `_insertAllSteps`.  One field per form
parameter (section order of `_defineParams`), plus the two host-framework
values the methods read: the resolved input star-file path
(`inputPseudoSubtomosProt.get()._getExtraPath(OUT_SUBTOMOS_STAR)`), the
protocol's own extra-directory path (`self._getExtraPath()`), and the
configured thread / MPI counts of the parallel section. -/
structure DeNovoArgs where
  inputStarPath : String
  outPath : String
  numberOfThreads : Int
  doCTF : Bool
  ignoreCTFUntilFirstPeak : Bool
  ctfPhaseFlipped : Bool
  padCtf : Bool
  ctfUncorrectedRef : Bool
  maxNumberOfIterations : Int
  numberOfClasses : Int
  maskDiameter : Int
  zeroMask : Bool
  gradBasedOpt : Bool
  gradWriteIter : Int
  noInitBlobs : Bool
  flattenSolvent : Bool
  symmetry : String
  angularSamplingDeg : Int
  offsetSearchRangePix : Int
  offsetSearchStepPix : Int
  noParallelDiscIO : Bool
  pooledSubtomos : Int
  allParticlesRam : Bool
  combineItersDisc : Bool
  scratchDir : String
  doGpu : Bool
  gpusToUse : String
  keepOnlyLastIterFiles : Bool
  oversampling : Int
  extraParams : String
  numberOfMpi : Int

/-- `reliontomo/utils.py`, `getProgram`: append `_mpi` to the program name
when more than one MPI process is requested. -/
def getProgram (program : String) (nMpi : Int) : String :=
  if nMpi > 1 then program ++ "_mpi" else program

/-- `ProtRelionDeNovoInitialModel._genCommand`, translated piece by piece:
each `cmd += ...` of the Python method is one appended chunk, in source
order, with the same guard. -/
def genCommand (a : DeNovoArgs) : String :=
  "--i " ++ a.inputStarPath ++ " "
    ++ "--o " ++ a.outPath ++ " "
    ++ "--denovo_3dref "
    ++ "--j " ++ toString a.numberOfThreads ++ " "
    ++ (if a.doCTF then "--ctf " else "")
    ++ (if a.ignoreCTFUntilFirstPeak then "--ctf_intact_first_peak " else "")
    ++ (if a.ctfPhaseFlipped then "--ctf_phase_flipped " else "")
    ++ (if a.padCtf then "--pad_ctf " else "")
    ++ (if a.ctfUncorrectedRef then "--ctf_uncorrected_ref " else "")
    ++ "--iter " ++ toString a.maxNumberOfIterations ++ " "
    ++ "--K " ++ toString a.numberOfClasses ++ " "
    ++ "--particle_diameter " ++ toString a.maskDiameter ++ " "
    ++ (if a.zeroMask then "--zero_mask " else "")
    ++ (if a.flattenSolvent then "--flatten_solvent " else "")
    ++ (if a.gradBasedOpt then "--grad " else "")
    ++ (if a.gradWriteIter ≠ 0 then "--grad_write_iter " ++ toString a.gradWriteIter ++ " " else "")
    ++ (if a.noInitBlobs then "--no_init_blobs " else "")
    ++ "--sym " ++ a.symmetry ++ " "
    ++ "--healpix_order " ++ toString a.angularSamplingDeg ++ " "
    ++ "--offset_step " ++ toString a.offsetSearchStepPix ++ " "
    ++ "--offset_range " ++ toString a.offsetSearchRangePix ++ " "
    ++ (if a.noParallelDiscIO then "--no_parallel_disc_io " else "")
    ++ "--pool " ++ toString a.pooledSubtomos ++ " "
    ++ (if a.allParticlesRam then "--preread_images " else "")
    ++ (if !a.combineItersDisc then "--dont_combine_weights_via_disc " else "")
    ++ (if a.scratchDir ≠ "" then "--scratch_dir " ++ a.scratchDir ++ " " else "")
    ++ (if a.doGpu then "--gpu " ++ a.gpusToUse ++ " " else "")
    ++ "oversampling " ++ toString a.oversampling
    ++ (if a.extraParams ≠ "" then " " ++ a.extraParams else "")

/-- The triple handed to `Plugin.runRelionTomo` by a protocol step: program
name, argument string, and MPI process count. -/
structure RunInvocation where
  program : String
  args : String
  nMpi : Int
  deriving DecidableEq

/-- `ProtRelionDeNovoInitialModel._generateDeNovo3DModel`: gradient-based
optimisation forces a single MPI process, otherwise the configured count is
used; the program name is derived with `getProgram`. -/
def generateDeNovo3DModel (a : DeNovoArgs) : RunInvocation :=
  let nMpi : Int := if a.gradBasedOpt then 1 else a.numberOfMpi
  { program := getProgram "relion_refine" nMpi
    args := genCommand a
    nMpi := nMpi }

/-- The protocol steps that exist in `ProtRelionDeNovoInitialModel`
(`_generateDeNovo3DModel` plus the dead `_cleanUndesiredFiles`). -/
inductive DeNovoStep where
  | generateDeNovo3DModel
  | cleanUndesiredFiles
  deriving DecidableEq

/-- `ProtRelionDeNovoInitialModel._insertAllSteps`: a single
`_insertFunctionStep(self._generateDeNovo3DModel)`; the
`_cleanUndesiredFiles` call site exists only inside a comment. -/
def insertAllSteps : List DeNovoStep :=
  [DeNovoStep.generateDeNovo3DModel]

/-- The schema instance with every boolean option false and every optional
option at its declared default (`maxNumberOfIterations` 25, classes 1,
`gradWriteIter` 10, symmetry C1, angular-sampling index 2, offset range 6 /
step 2, pool 1, oversampling 1, gpus string "0", empty scratch dir and
extra params, threads and MPI 1 from the parallel section).  The mask
diameter and the two paths have no declared default and stay parameters. -/
def mkAllFalseDeNovo (iPath oPath : String) (maskD : Int) : DeNovoArgs where
  inputStarPath := iPath
  outPath := oPath
  numberOfThreads := 1
  doCTF := false
  ignoreCTFUntilFirstPeak := false
  ctfPhaseFlipped := false
  padCtf := false
  ctfUncorrectedRef := false
  maxNumberOfIterations := 25
  numberOfClasses := 1
  maskDiameter := maskD
  zeroMask := false
  gradBasedOpt := false
  gradWriteIter := 10
  noInitBlobs := false
  flattenSolvent := false
  symmetry := "C1"
  angularSamplingDeg := 2
  offsetSearchRangePix := 6
  offsetSearchStepPix := 2
  noParallelDiscIO := false
  pooledSubtomos := 1
  allParticlesRam := false
  combineItersDisc := false
  scratchDir := ""
  doGpu := false
  gpusToUse := "0"
  keepOnlyLastIterFiles := false
  oversampling := 1
  extraParams := ""
  numberOfMpi := 1

/-- Modelled from the spec: "the generated command contains exactly the
mandatory tokens (input path, output path, operation flag, and
always-emitted numeric/string options) and no conditional flags".  This is
the command consisting of exactly the chunks `_genCommand` emits outside
any guard, in source order. -/
def specMandatoryTokensCmd (a : DeNovoArgs) : String :=
  "--i " ++ a.inputStarPath ++ " "
    ++ "--o " ++ a.outPath ++ " "
    ++ "--denovo_3dref "
    ++ "--j " ++ toString a.numberOfThreads ++ " "
    ++ "--iter " ++ toString a.maxNumberOfIterations ++ " "
    ++ "--K " ++ toString a.numberOfClasses ++ " "
    ++ "--particle_diameter " ++ toString a.maskDiameter ++ " "
    ++ "--sym " ++ a.symmetry ++ " "
    ++ "--healpix_order " ++ toString a.angularSamplingDeg ++ " "
    ++ "--offset_step " ++ toString a.offsetSearchStepPix ++ " "
    ++ "--offset_range " ++ toString a.offsetSearchRangePix ++ " "
    ++ "--pool " ++ toString a.pooledSubtomos ++ " "
    ++ "oversampling " ++ toString a.oversampling

/-- A concrete all-false, all-default schema instance used in witnesses and
counterexamples. -/
def deNovoAllFalse : DeNovoArgs :=
  mkAllFalseDeNovo "in.star" "extra/" 200

/-- The scenario instance of the end-to-end claim: all-false defaults with
CTF correction switched on (mask diameter 200, 25 iterations, 1 class,
symmetry C1, angular-sampling index 2 are the defaults already). -/
def c6Args : DeNovoArgs :=
  { deNovoAllFalse with doCTF := true }

/-- Arguments of `ProtRelionTomoReconstruct` read by `_genTomoRecCommand`
and `_createOutputStep`: the tomograms star file of the upstream particles
(`inReParticles.get().getTomograms()`), the target tomogram identifier, the
protocol's extra directory (for `_getExtraPath`), the binning factor, the
three shape overrides, the thread count, and the upstream tilt-series
sampling rate (`inReParticles.get().getTsSamplingRate()`). -/
structure TomoRecArgs where
  tomogramsPath : String
  tomoId : String
  extraDir : String
  binFactor : ℚ
  width : Int
  height : Int
  thickness : Int
  numberOfThreads : Int
  tsSamplingRate : ℚ

/-- The host framework's `_getExtraPath`: a path under the protocol's extra
directory. -/
def getExtraPath (a : TomoRecArgs) (fileName : String) : String :=
  a.extraDir ++ "/" ++ fileName

/-- `ProtRelionTomoReconstruct._getOutTomoFileName`:
`self._getExtraPath(self.tomoId.get() + '.mrc')`. -/
def getOutTomoFileName (a : TomoRecArgs) : String :=
  getExtraPath a (a.tomoId ++ ".mrc")

/-- Round `10 * q` to the nearest integer, ties to even, computed on the
numerator and denominator so that it evaluates by kernel reduction.  This
is the scaling step of `%.1f` formatting. -/
def roundTenthHalfEven (q : ℚ) : Int :=
  let n := 10 * q.num
  let d := (q.den : Int)
  let f := Int.fdiv n d
  let r := n - f * d
  if 2 * r < d then f
  else if d < 2 * r then f + 1
  else if f % 2 = 0 then f else f + 1

/-- Python's `'%.1f' % x` on an exact rational: one decimal digit, correct
rounding with ties to even. -/
def format1f (q : ℚ) : String :=
  let n := roundTenthHalfEven q
  if n < 0 then "-" ++ toString ((-n) / 10) ++ "." ++ toString ((-n) % 10)
  else toString (n / 10) ++ "." ++ toString (n % 10)

/-- `ProtRelionTomoReconstruct._genTomoRecCommand`, translated chunk by
chunk in source order. -/
def genTomoRecCommand (a : TomoRecArgs) : String :=
  "--t " ++ a.tomogramsPath ++ " "
    ++ "--tn " ++ a.tomoId ++ " "
    ++ "--o " ++ getOutTomoFileName a ++ " "
    ++ "--bin " ++ format1f a.binFactor ++ " "
    ++ "--w " ++ toString a.width ++ " "
    ++ "--h " ++ toString a.height ++ " "
    ++ "--d " ++ toString a.thickness ++ " "
    ++ "--j " ++ toString a.numberOfThreads ++ " "

/-- The fields `_createOutputStep` sets on the produced `Tomogram` domain
object. -/
structure TomogramOut where
  location : String
  samplingRate : ℚ
  tsId : String

/-- `ProtRelionTomoReconstruct._createOutputStep`: locate the output file
by the naming convention, attach the sampling rate (upstream tilt-series
rate times the binning factor) and the tomogram identifier.  The header
normalisation (`fixVolume`) and the host-framework output registration are
side effects outside this model. -/
def createOutputStep (a : TomoRecArgs) : TomogramOut where
  location := getOutTomoFileName a
  samplingRate := a.tsSamplingRate * a.binFactor
  tsId := a.tomoId

/-- A concrete reconstruction instance with binning factor 8. -/
def tomoRec8 : TomoRecArgs where
  tomogramsPath := "ts/tomograms.star"
  tomoId := "TS_01"
  extraDir := "extra"
  binFactor := 8
  width := -1
  height := -1
  thickness := -1
  numberOfThreads := 4
  tsSamplingRate := 1

/-- A concrete reconstruction instance with binning factor 8.25. -/
def tomoRec825 : TomoRecArgs :=
  { tomoRec8 with binFactor := 8.25 }

/-- Concatenation of a list of command chunks. -/
def catList : List String → String
  | [] => ""
  | x :: xs => x ++ catList xs

/-- The chunks of `_genCommand` as a list, one element per `cmd += ...`
statement group of the Python method, in source order; conditional chunks
keep their guards.  `genCommand_eq_catList` below proves this is the same
command string. -/
def cmdPieces (a : DeNovoArgs) : List String :=
  ["--i " ++ a.inputStarPath ++ " ",
   "--o " ++ a.outPath ++ " ",
   "--denovo_3dref ",
   "--j " ++ toString a.numberOfThreads ++ " ",
   if a.doCTF then "--ctf " else "",
   if a.ignoreCTFUntilFirstPeak then "--ctf_intact_first_peak " else "",
   if a.ctfPhaseFlipped then "--ctf_phase_flipped " else "",
   if a.padCtf then "--pad_ctf " else "",
   if a.ctfUncorrectedRef then "--ctf_uncorrected_ref " else "",
   "--iter " ++ toString a.maxNumberOfIterations ++ " ",
   "--K " ++ toString a.numberOfClasses ++ " ",
   "--particle_diameter " ++ toString a.maskDiameter ++ " ",
   if a.zeroMask then "--zero_mask " else "",
   if a.flattenSolvent then "--flatten_solvent " else "",
   if a.gradBasedOpt then "--grad " else "",
   if a.gradWriteIter ≠ 0 then "--grad_write_iter " ++ toString a.gradWriteIter ++ " " else "",
   if a.noInitBlobs then "--no_init_blobs " else "",
   "--sym " ++ a.symmetry ++ " ",
   "--healpix_order " ++ toString a.angularSamplingDeg ++ " ",
   "--offset_step " ++ toString a.offsetSearchStepPix ++ " ",
   "--offset_range " ++ toString a.offsetSearchRangePix ++ " ",
   if a.noParallelDiscIO then "--no_parallel_disc_io " else "",
   "--pool " ++ toString a.pooledSubtomos ++ " ",
   if a.allParticlesRam then "--preread_images " else "",
   if !a.combineItersDisc then "--dont_combine_weights_via_disc " else "",
   if a.scratchDir ≠ "" then "--scratch_dir " ++ a.scratchDir ++ " " else "",
   if a.doGpu then "--gpu " ++ a.gpusToUse ++ " " else "",
   "oversampling " ++ toString a.oversampling,
   if a.extraParams ≠ "" then " " ++ a.extraParams else ""]

/-! ## Helper lemmas -/

theorem strAssoc : ∀ (a b c : String), (a ++ b) ++ c = a ++ (b ++ c)
  | ⟨xs⟩, ⟨ys⟩, ⟨zs⟩ => congrArg String.mk (List.append_assoc xs ys zs)

theorem endsSpaceAppend {x : String} (hx : ∃ q, x = q ++ " ") (e : String)
    (he : e = "" ∨ ∃ w, e = w ++ " ") : ∃ q, x ++ e = q ++ " " := by
  rcases hx with ⟨q, hq⟩
  rcases he with he | ⟨w, hw⟩
  · exact ⟨q, by rw [he, String.append_empty, hq]⟩
  · exact ⟨x ++ w, by rw [hw, ← strAssoc]⟩

theorem catList_append (l1 l2 : List String) :
    catList (l1 ++ l2) = catList l1 ++ catList l2 := by
  induction l1 with
  | nil => simp [catList, String.empty_append]
  | cons x xs ih => simp [catList, ih, strAssoc]

theorem genCommand_eq_catList (a : DeNovoArgs) :
    genCommand a = catList (cmdPieces a) := by
  simp [genCommand, cmdPieces, catList, strAssoc, String.append_empty] <;> rfl

/-! ## Claim theorems -/

/-- Claim C1: for every de-novo schema instance, when `combineItersDisc` is
false `_genCommand` emits the inverted flag `--dont_combine_weights_via_disc`
(so the command contains that token), and when it is true the flag is not
emitted: the command is exactly the false-case command with the token
removed from its slot.  Absence is stated as non-emission because the
free-form `extraParams` string is appended verbatim and may contain
arbitrary text. -/
theorem combineItersDisc_inverted_flag (a : DeNovoArgs) :
    ∃ p s,
      genCommand { a with combineItersDisc := false } =
        p ++ "--dont_combine_weights_via_disc " ++ s ∧
      genCommand { a with combineItersDisc := true } = p ++ s := by
  refine ⟨"--i " ++ a.inputStarPath ++ " " ++ "--o " ++ a.outPath ++ " " ++ "--denovo_3dref "
      ++ "--j " ++ toString a.numberOfThreads ++ " "
      ++ (if a.doCTF then "--ctf " else "")
      ++ (if a.ignoreCTFUntilFirstPeak then "--ctf_intact_first_peak " else "")
      ++ (if a.ctfPhaseFlipped then "--ctf_phase_flipped " else "")
      ++ (if a.padCtf then "--pad_ctf " else "")
      ++ (if a.ctfUncorrectedRef then "--ctf_uncorrected_ref " else "")
      ++ "--iter " ++ toString a.maxNumberOfIterations ++ " "
      ++ "--K " ++ toString a.numberOfClasses ++ " "
      ++ "--particle_diameter " ++ toString a.maskDiameter ++ " "
      ++ (if a.zeroMask then "--zero_mask " else "")
      ++ (if a.flattenSolvent then "--flatten_solvent " else "")
      ++ (if a.gradBasedOpt then "--grad " else "")
      ++ (if a.gradWriteIter ≠ 0 then "--grad_write_iter " ++ toString a.gradWriteIter ++ " " else "")
      ++ (if a.noInitBlobs then "--no_init_blobs " else "")
      ++ "--sym " ++ a.symmetry ++ " "
      ++ "--healpix_order " ++ toString a.angularSamplingDeg ++ " "
      ++ "--offset_step " ++ toString a.offsetSearchStepPix ++ " "
      ++ "--offset_range " ++ toString a.offsetSearchRangePix ++ " "
      ++ (if a.noParallelDiscIO then "--no_parallel_disc_io " else "")
      ++ "--pool " ++ toString a.pooledSubtomos ++ " "
      ++ (if a.allParticlesRam then "--preread_images " else ""),
    (if a.scratchDir ≠ "" then "--scratch_dir " ++ a.scratchDir ++ " " else "")
      ++ (if a.doGpu then "--gpu " ++ a.gpusToUse ++ " " else "")
      ++ "oversampling " ++ toString a.oversampling
      ++ (if a.extraParams ≠ "" then " " ++ a.extraParams else ""), ?_, ?_⟩ <;>
    simp [genCommand, strAssoc, String.append_empty, String.empty_append] <;> rfl

/-- Claim C2: gradient-based optimisation forces the MPI process count
passed to the runner down to 1 and keeps the plain program name, whatever
the configured `numberOfMpi`; without it the configured count is used and
the `_mpi` suffix is appended exactly when that count exceeds 1.  The
derivation is a total function, so no error is raised. -/
theorem gradBasedOpt_forces_single_process (a : DeNovoArgs) :
    (generateDeNovo3DModel { a with gradBasedOpt := true }).nMpi = 1 ∧
    (generateDeNovo3DModel { a with gradBasedOpt := true }).program = "relion_refine" ∧
    (generateDeNovo3DModel { a with gradBasedOpt := false }).nMpi = a.numberOfMpi ∧
    (generateDeNovo3DModel { a with gradBasedOpt := false }).program =
      (if a.numberOfMpi > 1 then "relion_refine_mpi" else "relion_refine") := by
  refine ⟨rfl, rfl, rfl, ?_⟩
  by_cases h : a.numberOfMpi > 1 <;> simp [generateDeNovo3DModel, getProgram, h]

/-- Claim C9: `_insertAllSteps` inserts only the model-generation step, so
`_cleanUndesiredFiles` is never invoked, and the `keepOnlyLastIterFiles`
boolean affects neither the inserted steps (a constant list) nor the
program, command string or MPI count of the executed step. -/
theorem cleanup_step_never_runs :
    insertAllSteps = [DeNovoStep.generateDeNovo3DModel] ∧
    DeNovoStep.cleanUndesiredFiles ∉ insertAllSteps ∧
    ∀ (a : DeNovoArgs) (b : Bool),
      generateDeNovo3DModel { a with keepOnlyLastIterFiles := b } = generateDeNovo3DModel a :=
  ⟨rfl, by decide, fun _ _ => rfl⟩

/-- Claim C10: `_genCommand` always ends with the unprefixed token pair
`oversampling <n>` followed only by the optional verbatim extra-arguments
string; the text before it ends with a space, so `oversampling` stands as
its own token with no `--` attached. -/
theorem oversampling_token_last (a : DeNovoArgs) :
    ∃ p,
      genCommand a = p ++ ("oversampling " ++ toString a.oversampling)
        ++ (if a.extraParams ≠ "" then " " ++ a.extraParams else "") ∧
      ∃ q, p = q ++ " " := by
  refine ⟨"--i " ++ a.inputStarPath ++ " " ++ "--o " ++ a.outPath ++ " " ++ "--denovo_3dref "
      ++ "--j " ++ toString a.numberOfThreads ++ " "
      ++ (if a.doCTF then "--ctf " else "")
      ++ (if a.ignoreCTFUntilFirstPeak then "--ctf_intact_first_peak " else "")
      ++ (if a.ctfPhaseFlipped then "--ctf_phase_flipped " else "")
      ++ (if a.padCtf then "--pad_ctf " else "")
      ++ (if a.ctfUncorrectedRef then "--ctf_uncorrected_ref " else "")
      ++ "--iter " ++ toString a.maxNumberOfIterations ++ " "
      ++ "--K " ++ toString a.numberOfClasses ++ " "
      ++ "--particle_diameter " ++ toString a.maskDiameter ++ " "
      ++ (if a.zeroMask then "--zero_mask " else "")
      ++ (if a.flattenSolvent then "--flatten_solvent " else "")
      ++ (if a.gradBasedOpt then "--grad " else "")
      ++ (if a.gradWriteIter ≠ 0 then "--grad_write_iter " ++ toString a.gradWriteIter ++ " " else "")
      ++ (if a.noInitBlobs then "--no_init_blobs " else "")
      ++ "--sym " ++ a.symmetry ++ " "
      ++ "--healpix_order " ++ toString a.angularSamplingDeg ++ " "
      ++ "--offset_step " ++ toString a.offsetSearchStepPix ++ " "
      ++ "--offset_range " ++ toString a.offsetSearchRangePix ++ " "
      ++ (if a.noParallelDiscIO then "--no_parallel_disc_io " else "")
      ++ "--pool " ++ toString a.pooledSubtomos ++ " "
      ++ (if a.allParticlesRam then "--preread_images " else "")
      ++ (if !a.combineItersDisc then "--dont_combine_weights_via_disc " else "")
      ++ (if a.scratchDir ≠ "" then "--scratch_dir " ++ a.scratchDir ++ " " else "")
      ++ (if a.doGpu then "--gpu " ++ a.gpusToUse ++ " " else ""), ?_, ?_⟩
  · simp [genCommand, strAssoc] <;> rfl
  · refine endsSpaceAppend (endsSpaceAppend (endsSpaceAppend (endsSpaceAppend
      ⟨"--i " ++ a.inputStarPath ++ " " ++ "--o " ++ a.outPath ++ " " ++ "--denovo_3dref "
        ++ "--j " ++ toString a.numberOfThreads ++ " "
        ++ (if a.doCTF then "--ctf " else "")
        ++ (if a.ignoreCTFUntilFirstPeak then "--ctf_intact_first_peak " else "")
        ++ (if a.ctfPhaseFlipped then "--ctf_phase_flipped " else "")
        ++ (if a.padCtf then "--pad_ctf " else "")
        ++ (if a.ctfUncorrectedRef then "--ctf_uncorrected_ref " else "")
        ++ "--iter " ++ toString a.maxNumberOfIterations ++ " "
        ++ "--K " ++ toString a.numberOfClasses ++ " "
        ++ "--particle_diameter " ++ toString a.maskDiameter ++ " "
        ++ (if a.zeroMask then "--zero_mask " else "")
        ++ (if a.flattenSolvent then "--flatten_solvent " else "")
        ++ (if a.gradBasedOpt then "--grad " else "")
        ++ (if a.gradWriteIter ≠ 0 then "--grad_write_iter " ++ toString a.gradWriteIter ++ " " else "")
        ++ (if a.noInitBlobs then "--no_init_blobs " else "")
        ++ "--sym " ++ a.symmetry ++ " "
        ++ "--healpix_order " ++ toString a.angularSamplingDeg ++ " "
        ++ "--offset_step " ++ toString a.offsetSearchStepPix ++ " "
        ++ "--offset_range " ++ toString a.offsetSearchRangePix ++ " "
        ++ (if a.noParallelDiscIO then "--no_parallel_disc_io " else "")
        ++ "--pool " ++ toString a.pooledSubtomos, rfl⟩ _ ?_) _ ?_) _ ?_) _ ?_
    · cases h : a.allParticlesRam
      · exact Or.inl (by simp [h])
      · exact Or.inr ⟨"--preread_images", by simp [h]⟩
    · cases h : a.combineItersDisc
      · exact Or.inr ⟨"--dont_combine_weights_via_disc", by simp [h]⟩
      · exact Or.inl (by simp [h])
    · rcases eq_or_ne a.scratchDir "" with h | h
      · exact Or.inl (by simp [h])
      · exact Or.inr ⟨"--scratch_dir " ++ a.scratchDir, by simp [h]⟩
    · cases h : a.doGpu
      · exact Or.inl (by simp [h])
      · exact Or.inr ⟨"--gpu " ++ a.gpusToUse, by simp [h]⟩

set_option maxRecDepth 8000 in
/-- Claim C4 counterexample: toggling the `combineItersDisc` boolean from
false to true makes the command strictly shorter (the inverted flag is
removed), so the toggle does not act by adding that option's flag token. -/
theorem combine_toggle_shrinks_command :
    deNovoAllFalse.combineItersDisc = false ∧
    (genCommand { deNovoAllFalse with combineItersDisc := true }).length <
      (genCommand deNovoAllFalse).length :=
  ⟨rfl, by decide⟩

/-- Claim C4, amended: toggling any single presence-style boolean from
false to true inserts exactly that option's token(s) at its slot, leaving
everything else unchanged; exceptions forced by the code are
`combineItersDisc` (inverted: switching it to true removes the
`--dont_combine_weights_via_disc` token) and `keepOnlyLastIterFiles`
(which does not appear in the command at all). -/
theorem boolean_toggles_insert_tokens (a : DeNovoArgs) :
    (∃ p s, genCommand { a with doCTF := false } = p ++ s ∧
      genCommand { a with doCTF := true } = p ++ "--ctf " ++ s) ∧
    (∃ p s, genCommand { a with ignoreCTFUntilFirstPeak := false } = p ++ s ∧
      genCommand { a with ignoreCTFUntilFirstPeak := true } = p ++ "--ctf_intact_first_peak " ++ s) ∧
    (∃ p s, genCommand { a with ctfPhaseFlipped := false } = p ++ s ∧
      genCommand { a with ctfPhaseFlipped := true } = p ++ "--ctf_phase_flipped " ++ s) ∧
    (∃ p s, genCommand { a with padCtf := false } = p ++ s ∧
      genCommand { a with padCtf := true } = p ++ "--pad_ctf " ++ s) ∧
    (∃ p s, genCommand { a with ctfUncorrectedRef := false } = p ++ s ∧
      genCommand { a with ctfUncorrectedRef := true } = p ++ "--ctf_uncorrected_ref " ++ s) ∧
    (∃ p s, genCommand { a with zeroMask := false } = p ++ s ∧
      genCommand { a with zeroMask := true } = p ++ "--zero_mask " ++ s) ∧
    (∃ p s, genCommand { a with flattenSolvent := false } = p ++ s ∧
      genCommand { a with flattenSolvent := true } = p ++ "--flatten_solvent " ++ s) ∧
    (∃ p s, genCommand { a with gradBasedOpt := false } = p ++ s ∧
      genCommand { a with gradBasedOpt := true } = p ++ "--grad " ++ s) ∧
    (∃ p s, genCommand { a with noInitBlobs := false } = p ++ s ∧
      genCommand { a with noInitBlobs := true } = p ++ "--no_init_blobs " ++ s) ∧
    (∃ p s, genCommand { a with noParallelDiscIO := false } = p ++ s ∧
      genCommand { a with noParallelDiscIO := true } = p ++ "--no_parallel_disc_io " ++ s) ∧
    (∃ p s, genCommand { a with allParticlesRam := false } = p ++ s ∧
      genCommand { a with allParticlesRam := true } = p ++ "--preread_images " ++ s) ∧
    (∃ p s, genCommand { a with doGpu := false } = p ++ s ∧
      genCommand { a with doGpu := true } = p ++ ("--gpu " ++ a.gpusToUse ++ " ") ++ s) ∧
    (∃ p s, genCommand { a with combineItersDisc := false } =
        p ++ "--dont_combine_weights_via_disc " ++ s ∧
      genCommand { a with combineItersDisc := true } = p ++ s) ∧
    genCommand { a with keepOnlyLastIterFiles := true } =
      genCommand { a with keepOnlyLastIterFiles := false } := by
  refine ⟨?_, ?_, ?_, ?_, ?_, ?_, ?_, ?_, ?_, ?_, ?_, ?_, ?_, ?_⟩
  · refine ⟨catList ((cmdPieces a).take 4), catList ((cmdPieces a).drop 5), ?_, ?_⟩
    · rw [genCommand_eq_catList,
        show cmdPieces { a with doCTF := false } =
          (cmdPieces a).take 4 ++ "" :: (cmdPieces a).drop 5 from rfl,
        catList_append]
      simp [catList, strAssoc, String.empty_append] <;> rfl
    · rw [genCommand_eq_catList,
        show cmdPieces { a with doCTF := true } =
          (cmdPieces a).take 4 ++ "--ctf " :: (cmdPieces a).drop 5 from rfl,
        catList_append]
      simp [catList, strAssoc, String.empty_append] <;> rfl
  · refine ⟨catList ((cmdPieces a).take 5), catList ((cmdPieces a).drop 6), ?_, ?_⟩
    · rw [genCommand_eq_catList,
        show cmdPieces { a with ignoreCTFUntilFirstPeak := false } =
          (cmdPieces a).take 5 ++ "" :: (cmdPieces a).drop 6 from rfl,
        catList_append]
      simp [catList, strAssoc, String.empty_append] <;> rfl
    · rw [genCommand_eq_catList,
        show cmdPieces { a with ignoreCTFUntilFirstPeak := true } =
          (cmdPieces a).take 5 ++ "--ctf_intact_first_peak " :: (cmdPieces a).drop 6 from rfl,
        catList_append]
      simp [catList, strAssoc, String.empty_append] <;> rfl
  · refine ⟨catList ((cmdPieces a).take 6), catList ((cmdPieces a).drop 7), ?_, ?_⟩
    · rw [genCommand_eq_catList,
        show cmdPieces { a with ctfPhaseFlipped := false } =
          (cmdPieces a).take 6 ++ "" :: (cmdPieces a).drop 7 from rfl,
        catList_append]
      simp [catList, strAssoc, String.empty_append] <;> rfl
    · rw [genCommand_eq_catList,
        show cmdPieces { a with ctfPhaseFlipped := true } =
          (cmdPieces a).take 6 ++ "--ctf_phase_flipped " :: (cmdPieces a).drop 7 from rfl,
        catList_append]
      simp [catList, strAssoc, String.empty_append] <;> rfl
  · refine ⟨catList ((cmdPieces a).take 7), catList ((cmdPieces a).drop 8), ?_, ?_⟩
    · rw [genCommand_eq_catList,
        show cmdPieces { a with padCtf := false } =
          (cmdPieces a).take 7 ++ "" :: (cmdPieces a).drop 8 from rfl,
        catList_append]
      simp [catList, strAssoc, String.empty_append] <;> rfl
    · rw [genCommand_eq_catList,
        show cmdPieces { a with padCtf := true } =
          (cmdPieces a).take 7 ++ "--pad_ctf " :: (cmdPieces a).drop 8 from rfl,
        catList_append]
      simp [catList, strAssoc, String.empty_append] <;> rfl
  · refine ⟨catList ((cmdPieces a).take 8), catList ((cmdPieces a).drop 9), ?_, ?_⟩
    · rw [genCommand_eq_catList,
        show cmdPieces { a with ctfUncorrectedRef := false } =
          (cmdPieces a).take 8 ++ "" :: (cmdPieces a).drop 9 from rfl,
        catList_append]
      simp [catList, strAssoc, String.empty_append] <;> rfl
    · rw [genCommand_eq_catList,
        show cmdPieces { a with ctfUncorrectedRef := true } =
          (cmdPieces a).take 8 ++ "--ctf_uncorrected_ref " :: (cmdPieces a).drop 9 from rfl,
        catList_append]
      simp [catList, strAssoc, String.empty_append] <;> rfl
  · refine ⟨catList ((cmdPieces a).take 12), catList ((cmdPieces a).drop 13), ?_, ?_⟩
    · rw [genCommand_eq_catList,
        show cmdPieces { a with zeroMask := false } =
          (cmdPieces a).take 12 ++ "" :: (cmdPieces a).drop 13 from rfl,
        catList_append]
      simp [catList, strAssoc, String.empty_append] <;> rfl
    · rw [genCommand_eq_catList,
        show cmdPieces { a with zeroMask := true } =
          (cmdPieces a).take 12 ++ "--zero_mask " :: (cmdPieces a).drop 13 from rfl,
        catList_append]
      simp [catList, strAssoc, String.empty_append] <;> rfl
  · refine ⟨catList ((cmdPieces a).take 13), catList ((cmdPieces a).drop 14), ?_, ?_⟩
    · rw [genCommand_eq_catList,
        show cmdPieces { a with flattenSolvent := false } =
          (cmdPieces a).take 13 ++ "" :: (cmdPieces a).drop 14 from rfl,
        catList_append]
      simp [catList, strAssoc, String.empty_append] <;> rfl
    · rw [genCommand_eq_catList,
        show cmdPieces { a with flattenSolvent := true } =
          (cmdPieces a).take 13 ++ "--flatten_solvent " :: (cmdPieces a).drop 14 from rfl,
        catList_append]
      simp [catList, strAssoc, String.empty_append] <;> rfl
  · refine ⟨catList ((cmdPieces a).take 14), catList ((cmdPieces a).drop 15), ?_, ?_⟩
    · rw [genCommand_eq_catList,
        show cmdPieces { a with gradBasedOpt := false } =
          (cmdPieces a).take 14 ++ "" :: (cmdPieces a).drop 15 from rfl,
        catList_append]
      simp [catList, strAssoc, String.empty_append] <;> rfl
    · rw [genCommand_eq_catList,
        show cmdPieces { a with gradBasedOpt := true } =
          (cmdPieces a).take 14 ++ "--grad " :: (cmdPieces a).drop 15 from rfl,
        catList_append]
      simp [catList, strAssoc, String.empty_append] <;> rfl
  · refine ⟨catList ((cmdPieces a).take 16), catList ((cmdPieces a).drop 17), ?_, ?_⟩
    · rw [genCommand_eq_catList,
        show cmdPieces { a with noInitBlobs := false } =
          (cmdPieces a).take 16 ++ "" :: (cmdPieces a).drop 17 from rfl,
        catList_append]
      simp [catList, strAssoc, String.empty_append] <;> rfl
    · rw [genCommand_eq_catList,
        show cmdPieces { a with noInitBlobs := true } =
          (cmdPieces a).take 16 ++ "--no_init_blobs " :: (cmdPieces a).drop 17 from rfl,
        catList_append]
      simp [catList, strAssoc, String.empty_append] <;> rfl
  · refine ⟨catList ((cmdPieces a).take 21), catList ((cmdPieces a).drop 22), ?_, ?_⟩
    · rw [genCommand_eq_catList,
        show cmdPieces { a with noParallelDiscIO := false } =
          (cmdPieces a).take 21 ++ "" :: (cmdPieces a).drop 22 from rfl,
        catList_append]
      simp [catList, strAssoc, String.empty_append] <;> rfl
    · rw [genCommand_eq_catList,
        show cmdPieces { a with noParallelDiscIO := true } =
          (cmdPieces a).take 21 ++ "--no_parallel_disc_io " :: (cmdPieces a).drop 22 from rfl,
        catList_append]
      simp [catList, strAssoc, String.empty_append] <;> rfl
  · refine ⟨catList ((cmdPieces a).take 23), catList ((cmdPieces a).drop 24), ?_, ?_⟩
    · rw [genCommand_eq_catList,
        show cmdPieces { a with allParticlesRam := false } =
          (cmdPieces a).take 23 ++ "" :: (cmdPieces a).drop 24 from rfl,
        catList_append]
      simp [catList, strAssoc, String.empty_append] <;> rfl
    · rw [genCommand_eq_catList,
        show cmdPieces { a with allParticlesRam := true } =
          (cmdPieces a).take 23 ++ "--preread_images " :: (cmdPieces a).drop 24 from rfl,
        catList_append]
      simp [catList, strAssoc, String.empty_append] <;> rfl
  · refine ⟨catList ((cmdPieces a).take 26), catList ((cmdPieces a).drop 27), ?_, ?_⟩
    · rw [genCommand_eq_catList,
        show cmdPieces { a with doGpu := false } =
          (cmdPieces a).take 26 ++ "" :: (cmdPieces a).drop 27 from rfl,
        catList_append]
      simp [catList, strAssoc, String.empty_append] <;> rfl
    · rw [genCommand_eq_catList,
        show cmdPieces { a with doGpu := true } =
          (cmdPieces a).take 26 ++ ("--gpu " ++ a.gpusToUse ++ " ") :: (cmdPieces a).drop 27 from rfl,
        catList_append]
      simp [catList, strAssoc, String.empty_append] <;> rfl
  · refine ⟨catList ((cmdPieces a).take 24), catList ((cmdPieces a).drop 25), ?_, ?_⟩
    · rw [genCommand_eq_catList,
        show cmdPieces { a with combineItersDisc := false } =
          (cmdPieces a).take 24 ++ "--dont_combine_weights_via_disc " :: (cmdPieces a).drop 25 from rfl,
        catList_append]
      simp [catList, strAssoc, String.empty_append] <;> rfl
    · rw [genCommand_eq_catList,
        show cmdPieces { a with combineItersDisc := true } =
          (cmdPieces a).take 24 ++ "" :: (cmdPieces a).drop 25 from rfl,
        catList_append]
      simp [catList, strAssoc, String.empty_append] <;> rfl
  · rfl

set_option maxRecDepth 8000 in
/-- Claim C3 counterexample: with every boolean false and every optional at
its declared default, the generated command is not just the mandatory
tokens: the conditional tokens `--grad_write_iter 10` (the declared default
10 is non-zero, so the guard `if self.gradWriteIter.get():` fires) and
`--dont_combine_weights_via_disc` (inverted flag of the false
`combineItersDisc`) are also emitted. -/
theorem allFalse_defaults_not_mandatory_only :
    genCommand deNovoAllFalse ≠ specMandatoryTokensCmd deNovoAllFalse := by
  decide

/-- Claim C3, amended: with every boolean false and every optional at its
declared default the command consists of exactly the mandatory tokens with
`--grad_write_iter 10` and `--dont_combine_weights_via_disc` inserted at
their slots, and no other conditional flag. -/
theorem allFalse_defaults_command_exact (iPath oPath : String) (maskD : Int) :
    genCommand (mkAllFalseDeNovo iPath oPath maskD) =
      "--i " ++ iPath ++ " " ++ "--o " ++ oPath ++ " " ++ "--denovo_3dref " ++ "--j 1 "
        ++ "--iter 25 " ++ "--K 1 " ++ "--particle_diameter " ++ toString maskD ++ " "
        ++ "--grad_write_iter 10 " ++ "--sym C1 " ++ "--healpix_order 2 "
        ++ "--offset_step 2 " ++ "--offset_range 6 " ++ "--pool 1 "
        ++ "--dont_combine_weights_via_disc " ++ "oversampling 1" := by
  simp [genCommand, mkAllFalseDeNovo, strAssoc, (by decide : (10 : Int) ≠ 0)] <;> rfl

set_option maxRecDepth 8000 in
/-- Claim C5 counterexample: in the all-false default instance the
gradient-based-optimisation toggle is off and yet `--grad_write_iter 10`
is emitted, because its guard tests the `gradWriteIter` value itself, not
the `gradBasedOpt` toggle. -/
theorem grad_write_emitted_without_grad_toggle :
    deNovoAllFalse.gradBasedOpt = false ∧
    genCommand deNovoAllFalse =
      "--i in.star --o extra/ --denovo_3dref --j 1 --iter 25 --K 1 --particle_diameter 200 "
        ++ "--grad_write_iter 10 "
        ++ "--sym C1 --healpix_order 2 --offset_step 2 --offset_range 6 --pool 1 "
        ++ "--dont_combine_weights_via_disc oversampling 1" :=
  ⟨rfl, by decide⟩

/-- Claim C5, amended: the GPU device list `--gpu <list>` is emitted
exactly when the `doGpu` toggle is true, and `--grad_write_iter <n>` is
emitted exactly when the `gradWriteIter` value is non-zero, independent of
the `gradBasedOpt` toggle. -/
theorem conditional_emission_gpu_and_grad_write (a : DeNovoArgs) :
    (∃ p s,
      genCommand { a with doGpu := true } = p ++ ("--gpu " ++ a.gpusToUse ++ " ") ++ s ∧
      genCommand { a with doGpu := false } = p ++ s) ∧
    (a.gradWriteIter ≠ 0 →
      ∃ p s,
        genCommand a = p ++ ("--grad_write_iter " ++ toString a.gradWriteIter ++ " ") ++ s ∧
        genCommand { a with gradWriteIter := 0 } = p ++ s) := by
  constructor
  · refine ⟨catList ((cmdPieces a).take 26), catList ((cmdPieces a).drop 27), ?_, ?_⟩
    · rw [genCommand_eq_catList,
        show cmdPieces { a with doGpu := true } =
          (cmdPieces a).take 26 ++ ("--gpu " ++ a.gpusToUse ++ " ") :: (cmdPieces a).drop 27
          from rfl,
        catList_append]
      simp [catList, strAssoc, String.empty_append] <;> rfl
    · rw [genCommand_eq_catList,
        show cmdPieces { a with doGpu := false } =
          (cmdPieces a).take 26 ++ "" :: (cmdPieces a).drop 27 from rfl,
        catList_append]
      simp [catList, strAssoc, String.empty_append] <;> rfl
  · intro h
    refine ⟨catList ((cmdPieces a).take 15), catList ((cmdPieces a).drop 16), ?_, ?_⟩
    · rw [genCommand_eq_catList,
        show cmdPieces a =
          (cmdPieces a).take 15
            ++ (if a.gradWriteIter ≠ 0 then "--grad_write_iter " ++ toString a.gradWriteIter ++ " " else "")
              :: (cmdPieces a).drop 16 from rfl,
        if_pos h, catList_append]
      simp [catList, strAssoc, String.empty_append] <;> rfl
    · rw [genCommand_eq_catList,
        show cmdPieces { a with gradWriteIter := 0 } =
          (cmdPieces a).take 15 ++ "" :: (cmdPieces a).drop 16 from rfl,
        catList_append]
      simp [catList, strAssoc, String.empty_append] <;> rfl

/-- Witness for the amended claim C5: the all-false default instance has a
non-zero `gradWriteIter`, and the token is emitted there and removed when
the value is set to 0. -/
theorem conditional_emission_witness :
    ∃ p s,
      genCommand deNovoAllFalse =
        p ++ ("--grad_write_iter " ++ toString deNovoAllFalse.gradWriteIter ++ " ") ++ s ∧
      genCommand { deNovoAllFalse with gradWriteIter := 0 } = p ++ s :=
  (conditional_emission_gpu_and_grad_write deNovoAllFalse).2 (by decide)

/-- Claim C6: in any schema instance with CTF correction on, 25 iterations,
1 class, mask diameter 200, symmetry C1 and angular-sampling index 2, the
command contains `--ctf `, `--iter 25 `, `--K 1 `, `--particle_diameter
200 `, `--sym C1 `, `--healpix_order 2 ` in that relative order. -/
theorem end_to_end_token_order (a : DeNovoArgs)
    (h1 : a.doCTF = true) (h2 : a.maxNumberOfIterations = 25)
    (h3 : a.numberOfClasses = 1) (h4 : a.maskDiameter = 200)
    (h5 : a.symmetry = "C1") (h6 : a.angularSamplingDeg = 2) :
    ∃ t0 t1 t2 t3 t4 t5 t6,
      genCommand a = t0 ++ "--ctf " ++ t1 ++ "--iter 25 " ++ t2 ++ "--K 1 " ++ t3
        ++ "--particle_diameter 200 " ++ t4 ++ "--sym C1 " ++ t5
        ++ "--healpix_order 2 " ++ t6 := by
  refine ⟨"--i " ++ a.inputStarPath ++ " " ++ "--o " ++ a.outPath ++ " " ++ "--denovo_3dref "
      ++ "--j " ++ toString a.numberOfThreads ++ " ",
    (if a.ignoreCTFUntilFirstPeak then "--ctf_intact_first_peak " else "")
      ++ (if a.ctfPhaseFlipped then "--ctf_phase_flipped " else "")
      ++ (if a.padCtf then "--pad_ctf " else "")
      ++ (if a.ctfUncorrectedRef then "--ctf_uncorrected_ref " else ""),
    "", "",
    (if a.zeroMask then "--zero_mask " else "")
      ++ (if a.flattenSolvent then "--flatten_solvent " else "")
      ++ (if a.gradBasedOpt then "--grad " else "")
      ++ (if a.gradWriteIter ≠ 0 then "--grad_write_iter " ++ toString a.gradWriteIter ++ " " else "")
      ++ (if a.noInitBlobs then "--no_init_blobs " else ""),
    "",
    "--offset_step " ++ toString a.offsetSearchStepPix ++ " "
      ++ "--offset_range " ++ toString a.offsetSearchRangePix ++ " "
      ++ (if a.noParallelDiscIO then "--no_parallel_disc_io " else "")
      ++ "--pool " ++ toString a.pooledSubtomos ++ " "
      ++ (if a.allParticlesRam then "--preread_images " else "")
      ++ (if !a.combineItersDisc then "--dont_combine_weights_via_disc " else "")
      ++ (if a.scratchDir ≠ "" then "--scratch_dir " ++ a.scratchDir ++ " " else "")
      ++ (if a.doGpu then "--gpu " ++ a.gpusToUse ++ " " else "")
      ++ "oversampling " ++ toString a.oversampling
      ++ (if a.extraParams ≠ "" then " " ++ a.extraParams else ""), ?_⟩
  simp [genCommand, h1, h2, h3, h4, h5, h6, strAssoc] <;> rfl

/-- Witness for claim C6 at the concrete scenario instance. -/
theorem end_to_end_token_order_witness :
    ∃ t0 t1 t2 t3 t4 t5 t6,
      genCommand c6Args = t0 ++ "--ctf " ++ t1 ++ "--iter 25 " ++ t2 ++ "--K 1 " ++ t3
        ++ "--particle_diameter 200 " ++ t4 ++ "--sym C1 " ++ t5
        ++ "--healpix_order 2 " ++ t6 :=
  end_to_end_token_order c6Args rfl rfl rfl rfl rfl rfl

/-- Claim C7: the binning factor is rendered after `--bin ` by one-decimal
fixed-point formatting; input 8 renders as `8.0` and input 8.25 as `8.2`
(correct rounding, ties to even, as Python's `%.1f` does on these exactly
representable doubles). -/
theorem bin_factor_one_decimal (a : TomoRecArgs) :
    (∃ p s, genTomoRecCommand a = p ++ ("--bin " ++ format1f a.binFactor ++ " ") ++ s) ∧
    (a.binFactor = 8 → ∃ p s, genTomoRecCommand a = p ++ "--bin 8.0 " ++ s) ∧
    (a.binFactor = 8.25 → ∃ p s, genTomoRecCommand a = p ++ "--bin 8.2 " ++ s) := by
  have h8 : format1f (8 : ℚ) = "8.0" := by decide
  have h825 : format1f (8.25 : ℚ) = "8.2" := by
    have e : (8.25 : ℚ) = Rat.mk' 33 4 := by
      rw [Rat.mk'_eq_divInt, Rat.divInt_eq_div]; norm_num
    rw [e]; decide
  refine ⟨⟨"--t " ++ a.tomogramsPath ++ " " ++ "--tn " ++ a.tomoId ++ " "
        ++ "--o " ++ getOutTomoFileName a ++ " ",
      "--w " ++ toString a.width ++ " " ++ "--h " ++ toString a.height ++ " "
        ++ "--d " ++ toString a.thickness ++ " " ++ "--j " ++ toString a.numberOfThreads ++ " ",
      ?_⟩,
    fun h => ⟨"--t " ++ a.tomogramsPath ++ " " ++ "--tn " ++ a.tomoId ++ " "
        ++ "--o " ++ getOutTomoFileName a ++ " ",
      "--w " ++ toString a.width ++ " " ++ "--h " ++ toString a.height ++ " "
        ++ "--d " ++ toString a.thickness ++ " " ++ "--j " ++ toString a.numberOfThreads ++ " ",
      ?_⟩,
    fun h => ⟨"--t " ++ a.tomogramsPath ++ " " ++ "--tn " ++ a.tomoId ++ " "
        ++ "--o " ++ getOutTomoFileName a ++ " ",
      "--w " ++ toString a.width ++ " " ++ "--h " ++ toString a.height ++ " "
        ++ "--d " ++ toString a.thickness ++ " " ++ "--j " ++ toString a.numberOfThreads ++ " ",
      ?_⟩⟩
  · simp [genTomoRecCommand, strAssoc] <;> rfl
  · simp [genTomoRecCommand, h, h8, strAssoc] <;> rfl
  · simp [genTomoRecCommand, h, h825, strAssoc] <;> rfl

/-- Witness for claim C7 at binning factors 8 and 8.25. -/
theorem bin_factor_one_decimal_witness :
    (∃ p s, genTomoRecCommand tomoRec8 = p ++ "--bin 8.0 " ++ s) ∧
    (∃ p s, genTomoRecCommand tomoRec825 = p ++ "--bin 8.2 " ++ s) :=
  ⟨(bin_factor_one_decimal tomoRec8).2.1 rfl,
   (bin_factor_one_decimal tomoRec825).2.2 rfl⟩

/-- Claim C8: the output tomogram's location is the extra-directory path
`<tomoId>.mrc`, the very path emitted after `--o ` in the reconstruction
command, and its sampling rate is the upstream tilt-series sampling rate
times the binning factor; the identifier label is the chosen tomogram id. -/
theorem output_tomogram_assembly (a : TomoRecArgs) :
    (createOutputStep a).location = getExtraPath a (a.tomoId ++ ".mrc") ∧
    (∃ p s, genTomoRecCommand a = p ++ ("--o " ++ (createOutputStep a).location ++ " ") ++ s) ∧
    (createOutputStep a).samplingRate = a.tsSamplingRate * a.binFactor ∧
    (createOutputStep a).tsId = a.tomoId := by
  refine ⟨rfl, ⟨"--t " ++ a.tomogramsPath ++ " " ++ "--tn " ++ a.tomoId ++ " ",
    "--bin " ++ format1f a.binFactor ++ " " ++ "--w " ++ toString a.width ++ " "
      ++ "--h " ++ toString a.height ++ " " ++ "--d " ++ toString a.thickness ++ " "
      ++ "--j " ++ toString a.numberOfThreads ++ " ", ?_⟩, rfl, rfl⟩
  simp [genTomoRecCommand, createOutputStep, strAssoc] <;> rfl
